import Mathlib

/-!
Verification of the command-interpretation and tool-dispatch core of the
voice-assistant repository (src/agent.py, src/tools.py).

The Python string operations the interpreter relies on (`lower`, `in`,
`startswith`, `replace`, `split`, `strip`, `list.index`, `int(...)`) are
modelled below over `List Char` with structural (or explicit-fuel)
recursion so that every definition evaluates inside the kernel.
-/

namespace Echo

/-- Python `str.lower()` (ASCII case folding, as exercised by the agent). -/
def pyLower (s : String) : String := ⟨s.data.map Char.toLower⟩

/-- Whether `pre` is an initial segment of `l` (helper for `startswith`
and the substring scan of Python `in`). -/
def listStartsWith : List Char → List Char → Bool
  | [], _ => true
  | _ :: _, [] => false
  | p :: ps, c :: cs => p == c && listStartsWith ps cs

/-- Python `s.startswith(pre)`. -/
def pyStartsWith (s pre : String) : Bool := listStartsWith pre.data s.data

/-- Substring scan over the character list: `pat` occurs somewhere in `l`.
Like Python, the empty pattern occurs in every string. -/
def containsList (pat : List Char) : List Char → Bool
  | [] => listStartsWith pat []
  | c :: cs => listStartsWith pat (c :: cs) || containsList pat cs

/-- Python `pat in s` (substring containment). -/
def pyContains (s pat : String) : Bool := containsList pat.data s.data

/-- If `sep` is an initial segment of `l`, return the remainder after it. -/
def dropAfterMatch? : List Char → List Char → Option (List Char)
  | [], l => some l
  | _ :: _, [] => none
  | p :: ps, c :: cs => if p == c then dropAfterMatch? ps cs else none

/-- Left-to-right, non-overlapping split on a non-empty separator, exactly
as Python `str.split(sep)`.  `fuel` bounds the scan; it is always called
with `fuel = l.length`, which suffices because every step consumes at
least one character. -/
def splitOnAuxL (sep : List Char) : Nat → List Char → List Char → List (List Char)
  | _, [], acc => [acc.reverse]
  | 0, rest, acc => [acc.reverse ++ rest]
  | fuel + 1, c :: cs, acc =>
    match dropAfterMatch? sep (c :: cs) with
    | some rest => acc.reverse :: splitOnAuxL sep fuel rest []
    | none => splitOnAuxL sep fuel cs (c :: acc)

/-- Python `s.split(sep)` for a non-empty separator (the agent never splits
on an empty separator, which Python rejects with ValueError). -/
def pySplit (s sep : String) : List String :=
  if sep.data.isEmpty then [s]
  else (splitOnAuxL sep.data s.data.length s.data []).map (fun l => ⟨l⟩)

/-- Python `s.replace(old, new)` for non-empty `old`: every left-to-right,
non-overlapping occurrence of `old` is replaced, which coincides with
`new.join(s.split(old))`. -/
def pyReplace (s old new : String) : String :=
  String.intercalate new (pySplit s old)

/-- Python `sep.join(parts)`. -/
def pyJoin (sep : String) (parts : List String) : String :=
  String.intercalate sep parts

/-- The whitespace class stripped by Python `str.strip()`. -/
def isPySpace (c : Char) : Bool :=
  c == ' ' || c == '\t' || c == '\n' || c == '\r' || c.toNat == 11 || c.toNat == 12

/-- Python `str.strip()` on the character list. -/
def stripList (l : List Char) : List Char :=
  ((l.dropWhile isPySpace).reverse.dropWhile isPySpace).reverse

/-- Python `s.strip()`. -/
def pyStrip (s : String) : String := ⟨stripList s.data⟩

/-- Python `list.index(x)`: index of the first occurrence, `none` where
Python raises ValueError. -/
def py_index? : List String → String → Option Nat
  | [], _ => none
  | x :: xs, t => if x == t then some 0 else (py_index? xs t).map (fun n => n + 1)

/-- Digit run after the first digit of a Python integer literal: single
underscores are allowed only between digits (as in CPython). -/
def py_digits_core : List Char → Nat → Option Nat
  | [], acc => some acc
  | c :: cs, acc =>
    if c.isDigit then py_digits_core cs (acc * 10 + (c.toNat - 48))
    else if c == '_' then
      match cs with
      | [] => none
      | d :: rest =>
        if d.isDigit then py_digits_core rest (acc * 10 + (d.toNat - 48)) else none
    else none

/-- Non-empty digit run (first character must be a digit). -/
def py_digits? : List Char → Option Nat
  | [] => none
  | c :: cs => if c.isDigit then py_digits_core cs (c.toNat - 48) else none

/-- Python `int(s)`: surrounding whitespace stripped, optional sign, then a
digit run; `none` where Python raises ValueError. -/
def py_int? (s : String) : Option Int :=
  match (pyStrip s).data with
  | [] => none
  | c :: cs =>
    if c == '+' then (py_digits? cs).map (fun n => (n : Int))
    else if c == '-' then (py_digits? cs).map (fun n => -(n : Int))
    else (py_digits? (c :: cs)).map (fun n => (n : Int))

/-! ## Command interpreter (src/agent.py, `Assistant.on_audio`) -/

/-- A resolved tool invocation issued by the interpreter. -/
inductive ToolCall
  | openApp (appName : String)
  | getWeather (city : String)
  | searchWeb (query : String)
  | sendEmail (toEmail subject message : String)
  | scheduleTask (title description : String) (minutes : Int)
  | greetUser
deriving DecidableEq

/-- Observable outcome of one voice turn: the strings spoken via
`session.speak` in order, the tool invocation issued (if any), and whether
an argument-extraction failure was caught and logged inside the turn. -/
structure InterpResult where
  spoken : List String
  call : Option ToolCall
  caughtParseError : Bool
deriving DecidableEq

def fallbackResponse : String := "Hmm, not sure what that means, Sir."
def weatherAck : String := "Check! Getting the weather."
def searchAck : String := "Will do, searching the web."
def emailAck : String := "Check! Sending your email."
def scheduleAck : String := "Got it! Scheduling that in your Google Calendar."
def scheduleSuccessMsg : String := "Event successfully added to Google Calendar, Sir."
def scheduleClarify : String := "Please specify the time, like \x27in 10 minutes\x27."
def scheduleFailMsg : String := "I couldn\u2019t set that schedule, Sir."

/-- The `open ` branch: `app_name = cmd_lower.replace("open ", "")` (note:
`replace` removes every occurrence, not only the leading one). -/
def openBranch (cmd_lower : String) : InterpResult :=
  let app_name := pyReplace cmd_lower "open " ""
  ⟨["Roger that, opening " ++ app_name ++ "."], some (ToolCall.openApp app_name), false⟩

/-- weather branch: `city = cmd_lower.replace("weather in ", "").strip()`,
then `get_weather(None, city or "Manila")` (`or` picks the default only
for the empty string). -/
def weatherBranch (cmd_lower : String) : InterpResult :=
  let city := pyStrip (pyReplace cmd_lower "weather in " "")
  ⟨[weatherAck], some (ToolCall.getWeather (if city == "" then "Manila" else city)), false⟩

/-- search branch: `query = cmd_lower.replace("search for ", "")`. -/
def searchBranch (cmd_lower : String) : InterpResult :=
  ⟨[searchAck], some (ToolCall.searchWeb (pyReplace cmd_lower "search for " "")), false⟩

/-- Tokenized email-argument extraction (lines 95-101 of agent.py):
`parts = cmd_lower.split(" ")`; the first occurrence of each of the
tokens `to`, `subject`, `message` is located (Python `list.index`, which
raises when absent); `to_email = parts[to_index]` (which raises when
`to_index` is out of range, i.e. when the first `to` is the last token);
`subject = " ".join(parts[subj_index : msg_index - 1])`;
`message = " ".join(parts[msg_index:])`.  `none` models the raised
ValueError/IndexError that the interpreter catches. -/
def emailArgs (cmd_lower : String) : Option (String × String × String) :=
  let parts := pySplit cmd_lower " "
  match py_index? parts "to", py_index? parts "subject", py_index? parts "message" with
  | some ti, some si, some mi =>
    let to_index := ti + 1
    let subj_index := si + 1
    let msg_index := mi + 1
    if to_index < parts.length then
      some (parts.getD to_index "",
            pyJoin " " ((parts.drop subj_index).take (msg_index - 1 - subj_index)),
            pyJoin " " (parts.drop msg_index))
    else none
  | _, _, _ => none

/-- send-email branch: the acknowledgment is spoken before extraction is
attempted; on extraction failure the exception is caught and logged and
no tool is called. -/
def emailBranch (cmd_lower : String) : InterpResult :=
  match emailArgs cmd_lower with
  | some args => ⟨[emailAck], some (ToolCall.sendEmail args.1 args.2.1 args.2.2), false⟩
  | none => ⟨[emailAck], none, true⟩

/-- Scheduling title (line 114 of agent.py):
`cmd_lower.split(" in ")[0].replace("schedule", "").replace("remind me to", "").strip()`. -/
def scheduleTitle (cmd_lower : String) : String :=
  pyStrip (pyReplace (pyReplace ((pySplit cmd_lower " in ").getD 0 "") "schedule" "") "remind me to" "")

/-- Scheduling minutes text (line 115 of agent.py):
`cmd_lower.split(" in ")[1].replace(" minutes", "").strip()`, fed to `int(...)`. -/
def scheduleMinutesText (cmd_lower : String) : String :=
  pyStrip (pyReplace ((pySplit cmd_lower " in ").getD 1 "") " minutes" "")

/-- schedule/remind branch: acknowledgment first; if both `" in "` and
`" minutes"` occur, the title and minutes are extracted and the calendar
tool is invoked followed by a success message (the tool itself never
raises); a failing `int(...)` is caught, logged and answered with an
apology; if either literal is missing, a clarification is requested and
no tool is invoked. -/
def scheduleBranch (cmd_lower : String) : InterpResult :=
  if pyContains cmd_lower " in " && pyContains cmd_lower " minutes" then
    let title_part := scheduleTitle cmd_lower
    match py_int? (scheduleMinutesText cmd_lower) with
    | some minutes =>
      ⟨[scheduleAck, scheduleSuccessMsg],
       some (ToolCall.scheduleTask title_part title_part minutes), false⟩
    | none => ⟨[scheduleAck, scheduleFailMsg], none, true⟩
  else
    ⟨[scheduleAck, scheduleClarify], none, false⟩

/-- The `greet_user` result (tools.py lines 60-65), a pure function of the
current hour; the interpreter calls it with the default name `"User"`. -/
def greet_user_msg (hour : Nat) (user_name : String) : String :=
  (if hour < 12 then "Good morning" else if hour < 18 then "Good afternoon" else "Good evening")
    ++ ", " ++ user_name ++ "! How can I assist you today?"

/-- hello/hi branch: the greeting tool is called and its result spoken. -/
def greetBranch (hour : Nat) : InterpResult :=
  ⟨[greet_user_msg hour "User"], some ToolCall.greetUser, false⟩

/-- The command interpreter of `Assistant.on_audio` (agent.py lines
65-129): the utterance is lower-cased once and matched against the
ordered chain of keyword triggers; the first matching branch runs; the
final `else` speaks the fixed default response.  `hour` is the current
local hour, which only the greeting branch consults. -/
def interpret (hour : Nat) (command_text : String) : InterpResult :=
  let cmd_lower := pyLower command_text
  if pyStartsWith cmd_lower "open " then openBranch cmd_lower
  else if pyContains cmd_lower "weather" then weatherBranch cmd_lower
  else if pyContains cmd_lower "search for" then searchBranch cmd_lower
  else if pyContains cmd_lower "send email" then emailBranch cmd_lower
  else if pyContains cmd_lower "schedule" || pyContains cmd_lower "remind me" then
    scheduleBranch cmd_lower
  else if pyContains cmd_lower "hello" || pyContains cmd_lower "hi" then greetBranch hour
  else ⟨[fallbackResponse], none, false⟩

/-! ## Ordered rule view of the interpreter (for the first-match-wins
invariant): the trigger predicates in source order, the index of the
first one that matches, and the branch each index dispatches to. -/

/-- The six trigger predicates, in the order the chained conditionals of
`on_audio` test them. -/
def triggerList : List (String → Bool) :=
  [fun c => pyStartsWith c "open ",
   fun c => pyContains c "weather",
   fun c => pyContains c "search for",
   fun c => pyContains c "send email",
   fun c => pyContains c "schedule" || pyContains c "remind me",
   fun c => pyContains c "hello" || pyContains c "hi"]

/-- Index of the first predicate in `ts` that holds of `c` (the length of
`ts` when none does). -/
def firstMatchIdx (c : String) : List (String → Bool) → Nat
  | [] => 0
  | t :: ts => if t c then 0 else firstMatchIdx c ts + 1

/-- Index of the first trigger matching the lower-cased utterance;
`6` means no trigger matches (the fallback rule). -/
def ruleIndex (c : String) : Nat := firstMatchIdx c triggerList

/-- The branch dispatched at each rule index (index 6: the fallback). -/
def applyBranch (hour : Nat) (cmd_lower : String) (i : Nat) : InterpResult :=
  if i = 0 then openBranch cmd_lower
  else if i = 1 then weatherBranch cmd_lower
  else if i = 2 then searchBranch cmd_lower
  else if i = 3 then emailBranch cmd_lower
  else if i = 4 then scheduleBranch cmd_lower
  else if i = 5 then greetBranch hour
  else ⟨[fallbackResponse], none, false⟩

/-! ## Tool registry (src/tools.py)

Each tool is modelled as a function of its arguments and of an
environment that fixes the behaviour of its external collaborators
(process launch, HTTP, SMTP, OAuth/calendar): each external operation is
an `Except PyExc _` value saying whether it succeeds or raises, so the
environment ranges over every possible failing transport.  A tool's
result type `Except PyExc String` records whether an exception escapes
its boundary. -/

/-- Python exceptions, categorised as the `except` clauses of tools.py
distinguish them: `smtplib.SMTPAuthenticationError` (a subclass of
`SMTPException`), other `smtplib.SMTPException`s, and everything else.
The payload is Python `str(e)`. -/
inductive PyExc
  | smtpAuthError (msg : String)
  | smtpError (msg : String)
  | other (msg : String)
deriving DecidableEq

/-- Python `str(e)` for a caught exception. -/
def PyExc.msg : PyExc → String
  | .smtpAuthError m => m
  | .smtpError m => m
  | .other m => m

/-- Python `try: body except ...: handler` around a string-returning block. -/
def pyTry (body : Except PyExc String) (handler : PyExc → Except PyExc String) :
    Except PyExc String :=
  match body with
  | .ok s => .ok s
  | .error e => handler e

/-- Whether a tool call returned a string rather than raising. -/
def isOk (r : Except PyExc String) : Bool :=
  match r with
  | .ok _ => true
  | .error _ => false

/-- Python truthiness of an optional string (`os.getenv` result,
`dict.get` result): `None` and the empty string are falsy. -/
def pyTruthyOpt : Option String → Bool
  | none => false
  | some s => s != ""

/-- Python `str.title()` (ASCII): a letter is upper-cased when the
previous character is not a letter, lower-cased otherwise. -/
def pyTitleAux : Bool → List Char → List Char
  | _, [] => []
  | prevAlpha, c :: cs =>
    (if c.isAlpha then (if prevAlpha then c.toLower else c.toUpper) else c)
      :: pyTitleAux c.isAlpha cs

/-- Python `s.title()`. -/
def pyTitle (s : String) : String := ⟨pyTitleAux false s.data⟩

/-- External collaborators of `open_app`: `os.path.expandvars` and
`subprocess.Popen` (which may raise). -/
structure OpenAppEnv where
  expandvars : String → String
  popen : String → Except PyExc Unit

/-- The static name→executable table of `open_app`, after
environment-variable expansion of each path. -/
def appsTable (expandvars : String → String) : List (String × String) :=
  [("notepad", expandvars "C:\\Windows\\System32\\notepad.exe"),
   ("calculator", expandvars "C:\\Windows\\System32\\calc.exe"),
   ("chrome", expandvars "C:\\Program Files\\Google\\Chrome\\Application\\chrome.exe"),
   ("vscode", expandvars "C:\\Users\\%USERNAME%\\AppData\\Local\\Programs\\Microsoft VS Code\\Code.exe"),
   ("edge", expandvars "C:\\Program Files (x86)\\Microsoft\\Edge\\Application\\msedge.exe"),
   ("word", expandvars "C:\\Program Files\\Microsoft Office\\root\\Office16\\WINWORD.EXE"),
   ("excel", expandvars "C:\\Program Files\\Microsoft Office\\root\\Office16\\EXCEL.EXE")]

/-- Python `apps.get(app_name.lower())`. -/
def lookupApp (apps : List (String × String)) (key : String) : Option String :=
  (apps.find? (fun p => p.1 == key)).map (fun p => p.2)

/-- tools.py lines 29-55: unknown name returns a "not recognized" string
without a launch attempt; a known name attempts the launch inside
`try/except`, returning a success or failure string either way. -/
def open_app (env : OpenAppEnv) (app_name : String) : Except PyExc String :=
  match lookupApp (appsTable env.expandvars) (pyLower app_name) with
  | none => .ok ("App \x27" ++ app_name ++ "\x27 not recognized or not configured.")
  | some path =>
    pyTry
      (match env.popen path with
       | .ok _ => .ok (pyTitle app_name ++ " opened successfully!")
       | .error e => .error e)
      (fun e => .ok ("Failed to open " ++ app_name ++ ": " ++ e.msg))

/-- tools.py lines 60-65: a pure function of the current hour and the
user name, never raising. -/
def greet_user (hour : Nat) (user_name : String) : Except PyExc String :=
  .ok (greet_user_msg hour user_name)

/-- External collaborators of `search_web`: which Chrome path (if any)
exists, and the two browser-opening actions, each of which may raise. -/
structure SearchEnv where
  chrome_path : Option String
  openChromeTab : Except PyExc Unit
  openDefaultBrowser : Except PyExc Unit

/-- tools.py lines 70-95: the whole body sits inside `try/except`; with a
Chrome binary present the query opens in Chrome, otherwise in the default
browser; any exception becomes a failure string. -/
def search_web (env : SearchEnv) (query : String) : Except PyExc String :=
  pyTry
    (match env.chrome_path with
     | some _ =>
       match env.openChromeTab with
       | .ok _ => .ok ("Searching the web for \x27" ++ query ++ "\x27 using Chrome...")
       | .error e => .error e
     | none =>
       match env.openDefaultBrowser with
       | .ok _ => .ok ("Chrome not found. Searching the web for \x27" ++ query
                        ++ "\x27 using default browser.")
       | .error e => .error e)
    (fun e => .ok ("Failed to search the web: " ++ e.msg))

/-- The wttr.in response as `get_weather` consumes it: the status code and
the nested JSON fields (description, temp_C, FeelsLikeC, humidity,
windspeedKmph), whose decoding/lookup may raise. -/
structure WeatherResp where
  status_code : Nat
  fields : Except PyExc (String × String × String × String × String)

/-- External collaborator of `get_weather`: `requests.get`, which may raise. -/
structure WeatherEnv where
  response : Except PyExc WeatherResp

/-- tools.py lines 100-131: non-200 status returns a "could not retrieve"
string; success returns the formatted one-line report; any exception
(connection, JSON decoding, missing fields) becomes an error string.  The
Python signature defaults `city` to "Manila", but the interpreter always
passes a city explicitly. -/
def get_weather (env : WeatherEnv) (city : String) : Except PyExc String :=
  pyTry
    (match env.response with
     | .error e => .error e
     | .ok r =>
       if r.status_code != 200 then .ok ("Could not retrieve weather for " ++ city ++ ".")
       else
         match r.fields with
         | .error e => .error e
         | .ok (desc, temp, feels, humidity, wind) =>
           .ok ("The current weather in " ++ city ++ " is " ++ desc
                ++ ". Temperature: " ++ temp ++ "°C (feels like " ++ feels
                ++ "°C). Humidity: " ++ humidity ++ "%. Wind speed: " ++ wind ++ " km/h."))
    (fun e => .ok ("An error occurred while retrieving weather for " ++ city ++ ": " ++ e.msg))

/-- External collaborators of `send_email`: the two credential values from
process configuration (`GMAIL_USER`, `GMAIL_APP_PASSWORD`) and the SMTP
transport (connect, STARTTLS, login, send, quit), which may raise — a
login failure as `SMTPAuthenticationError`, other SMTP failures as
`SMTPException`. -/
structure EmailEnv where
  gmail_user : Option String
  gmail_password : Option String
  transport : Except PyExc Unit

def emailNotConfiguredMsg : String := "Email sending failed: Gmail credentials not configured."
def emailAuthFailMsg : String := "Email sending failed: Authentication error. Check Gmail credentials."
def emailSmtpFailPre : String := "Email sending failed: SMTP error - "

/-- tools.py lines 136-179: inside `try`, the two credentials are checked
first and a missing (or empty) one returns the "not configured" string
before any transport is attempted; then the message is built and sent;
`except SMTPAuthenticationError` returns the authentication-failure
string, `except SMTPException` the generic SMTP-failure string, and a
final `except Exception` a generic error string. -/
def send_email (env : EmailEnv) (to_email subject message : String)
    (cc_email : Option String) : Except PyExc String :=
  pyTry
    (if !pyTruthyOpt env.gmail_user || !pyTruthyOpt env.gmail_password then
      .ok emailNotConfiguredMsg
     else
      match env.transport with
      | .ok _ => .ok ("Email sent successfully to " ++ to_email)
      | .error e => .error e)
    (fun e =>
      match e with
      | .smtpAuthError _ => .ok emailAuthFailMsg
      | .smtpError m => .ok (emailSmtpFailPre ++ m)
      | .other m => .ok ("An error occurred while sending email: " ++ m))

/-- The calendar API's insert result as the tool consumes it:
`created_event.get("id")` and `created_event.get("htmlLink")`. -/
structure CreatedEvent where
  id : Option String
  htmlLink : Option String

/-- External collaborators of `schedule_task_with_google_calendar`: the
OAuth/token-cache machinery (token file load, refresh, local-server flow)
and the event-insert API call, each of which may raise. -/
structure CalendarEnv where
  auth : Except PyExc Unit
  insert : Except PyExc CreatedEvent

/-- tools.py lines 184-237: the whole body sits inside `try/except`;
after auth and insert, a response with a truthy event id returns the
confirmation string with the link (Python formats a missing link as
"None"); otherwise an exception is raised and caught by the same handler
that maps every failure to the uniform failure string. -/
def schedule_task_with_google_calendar (env : CalendarEnv) (title description : String)
    (minutes_from_now : Int) : Except PyExc String :=
  pyTry
    (match env.auth with
     | .error e => .error e
     | .ok _ =>
       match env.insert with
       | .error e => .error e
       | .ok ev =>
         if pyTruthyOpt ev.id then
           .ok ("📅 Task \x27" ++ title ++ "\x27 scheduled successfully in Google Calendar!\nLink: "
                ++ (match ev.htmlLink with | some l => l | none => "None"))
         else .error (PyExc.other "No event ID returned — API response invalid."))
    (fun e => .ok ("❌ Failed to schedule task: " ++ e.msg))

/-! ## Shared helper lemmas -/

/-- Indexing an append within the left list. -/
theorem listGetQAppendLeft {α : Type} (l₁ l₂ : List α) (n : Nat) (h : n < l₁.length) :
    (l₁ ++ l₂).get? n = l₁.get? n := by
  induction l₁ generalizing n with
  | nil => simp at h
  | cons a t ih =>
    cases n with
    | zero => rfl
    | succ k => simpa using ih k (by simpa using h)

/-- A `try/except` whose handler always returns a string never raises. -/
theorem pyTry_isOk (body : Except PyExc String) (handler : PyExc → Except PyExc String)
    (h : ∀ e, isOk (handler e) = true) : isOk (pyTry body handler) = true := by
  cases body with
  | ok s => rfl
  | error e => exact h e

/-- When the send-email rule is the first to fire, the interpreter runs
the email branch. -/
theorem interpret_email_eq (hour : Nat) (u : String)
    (h0 : pyStartsWith (pyLower u) "open " = false)
    (h1 : pyContains (pyLower u) "weather" = false)
    (h2 : pyContains (pyLower u) "search for" = false)
    (h3 : pyContains (pyLower u) "send email" = true) :
    interpret hour u = emailBranch (pyLower u) := by
  simp [interpret, h0, h1, h2, h3]

/-- When the schedule/remind rule is the first to fire, the interpreter
runs the schedule branch. -/
theorem interpret_schedule_eq (hour : Nat) (u : String)
    (h0 : pyStartsWith (pyLower u) "open " = false)
    (h1 : pyContains (pyLower u) "weather" = false)
    (h2 : pyContains (pyLower u) "search for" = false)
    (h3 : pyContains (pyLower u) "send email" = false)
    (h4 : (pyContains (pyLower u) "schedule" || pyContains (pyLower u) "remind me") = true) :
    interpret hour u = scheduleBranch (pyLower u) := by
  simp [interpret, h0, h1, h2, h3, h4]

/-- Email-argument extraction fails whenever one of the three marker
tokens is absent from the space-split utterance. -/
theorem emailArgs_none (c : String)
    (h : py_index? (pySplit c " ") "to" = none ∨
         py_index? (pySplit c " ") "subject" = none ∨
         py_index? (pySplit c " ") "message" = none) :
    emailArgs c = none := by
  unfold emailArgs
  rcases h with h | h | h
  · simp [h]
  · cases hto : py_index? (pySplit c " ") "to" <;> simp [h, hto]
  · cases hto : py_index? (pySplit c " ") "to" <;>
      cases hs : py_index? (pySplit c " ") "subject" <;> simp [hto, hs, h]

/-! ## Claims -/

/-- C1 (counterexample): the utterance "what's the weather" contains
"weather" and no "weather in " phrase, yet the city passed to
`get_weather` is the whole utterance "what's the weather", not the fixed
default "Manila": the interpreter only falls back to the default when the
stripped city text is empty. -/
theorem C1_counterexample :
    pyContains (pyLower "what\x27s the weather") "weather" = true ∧
    pyContains (pyLower "what\x27s the weather") "weather in " = false ∧
    (interpret 10 "what\x27s the weather").call =
      some (ToolCall.getWeather "what\x27s the weather") ∧
    some (ToolCall.getWeather "what\x27s the weather") ≠
      some (ToolCall.getWeather "Manila") := by decide

/-- C1 (amended): for "weather in paris" the extracted city is "paris";
for every utterance on which the weather rule fires, the city passed to
`get_weather` is the lower-cased utterance with every occurrence of
"weather in " removed and whitespace-stripped, with the fixed default
"Manila" used only when that result is empty — so "what's the weather"
passes itself, not the default. -/
theorem C1_weather_city (hour : Nat) :
    (interpret hour "weather in paris").call = some (ToolCall.getWeather "paris") ∧
    (interpret hour "what\x27s the weather").call =
      some (ToolCall.getWeather "what\x27s the weather") ∧
    ∀ u, pyStartsWith (pyLower u) "open " = false →
      pyContains (pyLower u) "weather" = true →
      (interpret hour u).call =
        some (ToolCall.getWeather
          (if pyStrip (pyReplace (pyLower u) "weather in " "") == "" then "Manila"
           else pyStrip (pyReplace (pyLower u) "weather in " ""))) := by
  refine ⟨rfl, rfl, ?_⟩
  intro u h0 h1
  simp [interpret, h0, h1, weatherBranch]

/-- C1 (witness): instance of the amended statement at "any weather news". -/
theorem C1_witness :
    pyStartsWith (pyLower "any weather news") "open " = false ∧
    pyContains (pyLower "any weather news") "weather" = true ∧
    (interpret 10 "any weather news").call = some (ToolCall.getWeather "any weather news") := by
  refine ⟨by decide, by decide, ?_⟩
  exact ((C1_weather_city 10).2.2 "any weather news" (by decide) (by decide)).trans (by decide)

/-- C2 (counterexample): "open open notepad" starts with "open " and its
suffix after that prefix is "open notepad", but `replace("open ", "")`
removes every occurrence, so `open_app` receives "notepad" instead. -/
theorem C2_counterexample :
    pyLower "open open notepad" = "open " ++ "open notepad" ∧
    (interpret 10 "open open notepad").call = some (ToolCall.openApp "notepad") ∧
    (interpret 10 "open open notepad").call ≠ some (ToolCall.openApp "open notepad") := by
  decide

/-- C2 (amended): for every utterance whose lower-cased form starts with
"open ", the interpreter passes to `open_app` the lower-cased utterance
with every occurrence of "open " removed (which equals the suffix after
the prefix exactly when "open " does not reoccur in that suffix),
regardless of whether the name is in the known-application table. -/
theorem C2_open_extraction (hour : Nat) (u : String)
    (h : pyStartsWith (pyLower u) "open " = true) :
    (interpret hour u).call = some (ToolCall.openApp (pyReplace (pyLower u) "open " "")) := by
  simp [interpret, h, openBranch]

/-- C2 (witness): instance of the amended statement at "Open Spotify"
(a name that is not in the application table). -/
theorem C2_witness :
    pyStartsWith (pyLower "Open Spotify") "open " = true ∧
    (interpret 10 "Open Spotify").call = some (ToolCall.openApp "spotify") ∧
    lookupApp (appsTable id) "spotify" = none := by
  refine ⟨by decide, ?_, by decide⟩
  exact (C2_open_extraction 10 "Open Spotify" (by decide)).trans (by decide)

/-- C3: for "send email to bob subject hi message see you later" the
tokenized extraction yields recipient "bob", subject "hi" and body
"see you later", and `send_email` is invoked with exactly those three
arguments. -/
theorem C3_email_extraction_example :
    emailArgs (pyLower "send email to bob subject hi message see you later") =
      some ("bob", "hi", "see you later") ∧
    interpret 10 "send email to bob subject hi message see you later" =
      ⟨[emailAck], some (ToolCall.sendEmail "bob" "hi" "see you later"), false⟩ := by
  decide

/-- C4 (counterexample): "weather send email" contains "send email" and
lacks the token "to", but because "weather" is tested first, the weather
rule fires: the email acknowledgment is never spoken, no extraction is
attempted, and a (weather) tool call is issued — contradicting the claim
as stated for every utterance containing "send email". -/
theorem C4_counterexample :
    pyContains (pyLower "weather send email") "send email" = true ∧
    py_index? (pySplit (pyLower "weather send email") " ") "to" = none ∧
    interpret 10 "weather send email" =
      ⟨[weatherAck], some (ToolCall.getWeather "weather send email"), false⟩ ∧
    emailAck ∉ (interpret 10 "weather send email").spoken ∧
    (interpret 10 "weather send email").caughtParseError = false := by decide

/-- C4 (amended): for every utterance on which the send-email rule fires
(it contains "send email" and no earlier rule matches) and from whose
space-split token list at least one of "to", "subject", "message" is
absent, extraction fails, the failure is caught and logged, `send_email`
is not called, and the email acknowledgment — spoken before extraction is
attempted — is emitted anyway. -/
theorem C4_email_failure (hour : Nat) (u : String)
    (h0 : pyStartsWith (pyLower u) "open " = false)
    (h1 : pyContains (pyLower u) "weather" = false)
    (h2 : pyContains (pyLower u) "search for" = false)
    (h3 : pyContains (pyLower u) "send email" = true)
    (habs : py_index? (pySplit (pyLower u) " ") "to" = none ∨
            py_index? (pySplit (pyLower u) " ") "subject" = none ∨
            py_index? (pySplit (pyLower u) " ") "message" = none) :
    interpret hour u = ⟨[emailAck], none, true⟩ := by
  rw [interpret_email_eq hour u h0 h1 h2 h3]
  simp [emailBranch, emailArgs_none (pyLower u) habs]

/-- C4 (witness): instance of the amended statement at "send email to bob"
(no "subject" token). -/
theorem C4_witness :
    pyContains (pyLower "send email to bob") "send email" = true ∧
    py_index? (pySplit (pyLower "send email to bob") " ") "subject" = none ∧
    interpret 10 "send email to bob" = ⟨[emailAck], none, true⟩ := by
  refine ⟨by decide, by decide, ?_⟩
  exact C4_email_failure 10 "send email to bob" (by decide) (by decide) (by decide) (by decide)
    (Or.inr (Or.inl (by decide)))

/-- C5 (counterexample): "schedule meeting in ten minutes" contains both
" in " and " minutes", yet no scheduling tool is invoked: `int("ten")`
raises, the failure is caught, and the apology is spoken — so the claim's
first arm fails as stated. -/
theorem C5_counterexample :
    pyContains (pyLower "schedule meeting in ten minutes") "schedule" = true ∧
    pyContains (pyLower "schedule meeting in ten minutes") " in " = true ∧
    pyContains (pyLower "schedule meeting in ten minutes") " minutes" = true ∧
    (interpret 10 "schedule meeting in ten minutes").call = none ∧
    (interpret 10 "schedule meeting in ten minutes").spoken =
      [scheduleAck, scheduleFailMsg] := by decide

/-- C5 (amended): for utterances on which the schedule/remind rule fires:
when " in " and " minutes" are both present and the text after the first
" in " with " minutes" removed parses as an integer, extraction yields
the keyword-stripped title and that offset and the scheduling tool is
invoked (for "schedule meeting in 10 minutes": title "meeting" —
containing "meeting" — and offset 10); when " in " or " minutes" is
missing (as in "schedule meeting tomorrow"), the interpreter asks for an
explicit duration and invokes no tool. -/
theorem C5_schedule_extraction :
    (∀ (hour : Nat) (u : String),
      pyStartsWith (pyLower u) "open " = false →
      pyContains (pyLower u) "weather" = false →
      pyContains (pyLower u) "search for" = false →
      pyContains (pyLower u) "send email" = false →
      (pyContains (pyLower u) "schedule" || pyContains (pyLower u) "remind me") = true →
      (pyContains (pyLower u) " in " && pyContains (pyLower u) " minutes") = true →
      ∀ m : Int, py_int? (scheduleMinutesText (pyLower u)) = some m →
        interpret hour u =
          ⟨[scheduleAck, scheduleSuccessMsg],
           some (ToolCall.scheduleTask (scheduleTitle (pyLower u)) (scheduleTitle (pyLower u)) m),
           false⟩) ∧
    (∀ (hour : Nat) (u : String),
      pyStartsWith (pyLower u) "open " = false →
      pyContains (pyLower u) "weather" = false →
      pyContains (pyLower u) "search for" = false →
      pyContains (pyLower u) "send email" = false →
      (pyContains (pyLower u) "schedule" || pyContains (pyLower u) "remind me") = true →
      (pyContains (pyLower u) " in " && pyContains (pyLower u) " minutes") = false →
        interpret hour u = ⟨[scheduleAck, scheduleClarify], none, false⟩) ∧
    interpret 10 "schedule meeting in 10 minutes" =
      ⟨[scheduleAck, scheduleSuccessMsg],
       some (ToolCall.scheduleTask "meeting" "meeting" 10), false⟩ ∧
    pyContains (scheduleTitle (pyLower "schedule meeting in 10 minutes")) "meeting" = true ∧
    interpret 10 "schedule meeting tomorrow" = ⟨[scheduleAck, scheduleClarify], none, false⟩ := by
  refine ⟨?_, ?_, by decide, by decide, by decide⟩
  · intro hour u h0 h1 h2 h3 h4 hin m hm
    rw [interpret_schedule_eq hour u h0 h1 h2 h3 h4]
    simp [scheduleBranch, hin, hm]
  · intro hour u h0 h1 h2 h3 h4 hin
    rw [interpret_schedule_eq hour u h0 h1 h2 h3 h4]
    simp [scheduleBranch, hin]

/-- C5 (witness): instances of both arms of the amended statement, on the
"remind me" side of the trigger. -/
theorem C5_witness :
    interpret 10 "remind me to call mom in 5 minutes" =
      ⟨[scheduleAck, scheduleSuccessMsg],
       some (ToolCall.scheduleTask "call mom" "call mom" 5), false⟩ ∧
    interpret 10 "remind me to nap" = ⟨[scheduleAck, scheduleClarify], none, false⟩ := by
  constructor
  · exact (C5_schedule_extraction.1 10 "remind me to call mom in 5 minutes"
      (by decide) (by decide) (by decide) (by decide) (by decide) (by decide) 5
      (by decide)).trans (by decide)
  · exact C5_schedule_extraction.2.1 10 "remind me to nap"
      (by decide) (by decide) (by decide) (by decide) (by decide) (by decide)

set_option maxHeartbeats 1600000 in
/-- C6: for every utterance, the interpreter's result is exactly the
branch of the first trigger in the ordered list (open-prefix, weather,
search-for, send-email, schedule/remind, hello/hi) that matches the
lower-cased utterance — index 6 (no trigger matches) being the fallback —
and when no trigger matches, the fixed fallback acknowledgment is spoken
and no tool call is issued. -/
theorem C6_ordered_first_match (hour : Nat) (u : String) :
    interpret hour u = applyBranch hour (pyLower u) (ruleIndex (pyLower u)) ∧
    (ruleIndex (pyLower u) = 6 ↔ ∀ t ∈ triggerList, t (pyLower u) = false) ∧
    ((∀ t ∈ triggerList, t (pyLower u) = false) →
      (interpret hour u).spoken = [fallbackResponse] ∧ (interpret hour u).call = none) := by
  cases h0 : pyStartsWith (pyLower u) "open " <;>
  cases h1 : pyContains (pyLower u) "weather" <;>
  cases h2 : pyContains (pyLower u) "search for" <;>
  cases h3 : pyContains (pyLower u) "send email" <;>
  cases h4 : pyContains (pyLower u) "schedule" || pyContains (pyLower u) "remind me" <;>
  cases h5 : pyContains (pyLower u) "hello" || pyContains (pyLower u) "hi" <;>
    simp [interpret, applyBranch, ruleIndex, triggerList, firstMatchIdx,
      h0, h1, h2, h3, h4, h5]

/-- C6 (witness): "blargh" matches no trigger, so the fallback is spoken
and no tool is called. -/
theorem C6_witness :
    (∀ t ∈ triggerList, t (pyLower "blargh") = false) ∧
    (interpret 10 "blargh").spoken = [fallbackResponse] ∧
    (interpret 10 "blargh").call = none := by
  refine ⟨by decide, (C6_ordered_first_match 10 "blargh").2.2 (by decide)⟩

/-- C7: every tool in the registry — `open_app`, `greet_user`,
`search_web`, `get_weather`, `send_email`,
`schedule_task_with_google_calendar` — returns a string result for every
input and every behaviour of its external collaborators, including ones
that make its internal operations raise; no exception escapes a tool's
boundary. -/
theorem C7_tools_never_raise :
    ∀ (envO : OpenAppEnv) (appName : String) (hour : Nat) (userName : String)
      (envS : SearchEnv) (query : String) (envW : WeatherEnv) (city : String)
      (envE : EmailEnv) (toEmail subject message : String) (cc : Option String)
      (envC : CalendarEnv) (title descr : String) (mins : Int),
      isOk (open_app envO appName) = true ∧
      isOk (greet_user hour userName) = true ∧
      isOk (search_web envS query) = true ∧
      isOk (get_weather envW city) = true ∧
      isOk (send_email envE toEmail subject message cc) = true ∧
      isOk (schedule_task_with_google_calendar envC title descr mins) = true := by
  intro envO appName hour userName envS query envW city envE toEmail subject message cc
    envC title descr mins
  refine ⟨?_, rfl, ?_, ?_, ?_, ?_⟩
  · unfold open_app
    cases lookupApp (appsTable envO.expandvars) (pyLower appName) with
    | none => rfl
    | some path => exact pyTry_isOk _ _ (fun e => rfl)
  · exact pyTry_isOk _ _ (fun e => rfl)
  · exact pyTry_isOk _ _ (fun e => rfl)
  · exact pyTry_isOk _ _ (fun e => by cases e <;> rfl)
  · exact pyTry_isOk _ _ (fun e => rfl)

/-- C8: `send_email` checks the two credential values first and, when
either is missing (or empty), returns the "not configured" string for
every possible transport behaviour — i.e. without contacting the mail
server; an authentication failure yields the authentication-specific
failure string and a generic SMTP failure a different, generic failure
string (distinct for every SMTP message); and the tool never raises to
its caller. -/
theorem C8_send_email_contract :
    (∀ (user password : Option String) (transport : Except PyExc Unit)
       (toEmail subject message : String) (cc : Option String),
       (!pyTruthyOpt user || !pyTruthyOpt password) = true →
       send_email ⟨user, password, transport⟩ toEmail subject message cc =
         .ok emailNotConfiguredMsg) ∧
    (∀ (user password m toEmail subject message : String) (cc : Option String),
       user ≠ "" → password ≠ "" →
       send_email ⟨some user, some password, .error (PyExc.smtpAuthError m)⟩
           toEmail subject message cc = .ok emailAuthFailMsg) ∧
    (∀ (user password m toEmail subject message : String) (cc : Option String),
       user ≠ "" → password ≠ "" →
       send_email ⟨some user, some password, .error (PyExc.smtpError m)⟩
           toEmail subject message cc = .ok (emailSmtpFailPre ++ m)) ∧
    (∀ m : String, emailAuthFailMsg ≠ emailSmtpFailPre ++ m) ∧
    (∀ (env : EmailEnv) (toEmail subject message : String) (cc : Option String),
       isOk (send_email env toEmail subject message cc) = true) := by
  refine ⟨?_, ?_, ?_, ?_, ?_⟩
  · intro user password transport toEmail subject message cc h
    simp [send_email, pyTry, h]
  · intro user password m toEmail subject message cc hu hp
    simp [send_email, pyTry, pyTruthyOpt, hu, hp]
  · intro user password m toEmail subject message cc hu hp
    simp [send_email, pyTry, pyTruthyOpt, hu, hp]
  · intro m h
    obtain ⟨md⟩ := m
    have h2 : emailAuthFailMsg.data = emailSmtpFailPre.data ++ md := congrArg String.data h
    have h5 : emailAuthFailMsg.data.get? 22 = emailSmtpFailPre.data.get? 22 := by
      rw [h2, listGetQAppendLeft emailSmtpFailPre.data md 22 (by decide)]
    revert h5
    decide
  · intro env toEmail subject message cc
    exact pyTry_isOk _ _ (fun e => by cases e <;> rfl)

/-- C8 (witness): concrete instances — missing user, failing
authentication, generic SMTP failure — with their three distinct result
strings. -/
theorem C8_witness :
    send_email ⟨none, some "pw", .error (PyExc.smtpError "boom")⟩ "a" "s" "m" none =
      .ok emailNotConfiguredMsg ∧
    send_email ⟨some "user", some "pw", .error (PyExc.smtpAuthError "denied")⟩ "a" "s" "m" none =
      .ok emailAuthFailMsg ∧
    send_email ⟨some "user", some "pw", .error (PyExc.smtpError "boom")⟩ "a" "s" "m" none =
      .ok (emailSmtpFailPre ++ "boom") ∧
    emailAuthFailMsg ≠ emailSmtpFailPre ++ "boom" := by
  refine ⟨C8_send_email_contract.1 none (some "pw") _ "a" "s" "m" none (by decide),
    C8_send_email_contract.2.1 "user" "pw" "denied" "a" "s" "m" none (by decide) (by decide),
    C8_send_email_contract.2.2.1 "user" "pw" "boom" "a" "s" "m" none (by decide) (by decide),
    C8_send_email_contract.2.2.2.1 "boom"⟩

/-- C9 (counterexample): in "send email subject message to" all three
marker tokens are present (in the order subject, message, to), yet
extraction raises: the first "to" is the last token, so
`parts[to_index]` is out of range; the failure is caught and `send_email`
is not invoked — refuting "extraction raises if and only if a marker
token is absent". -/
theorem C9_counterexample :
    py_index? (pySplit (pyLower "send email subject message to") " ") "to" = some 4 ∧
    py_index? (pySplit (pyLower "send email subject message to") " ") "subject" = some 2 ∧
    py_index? (pySplit (pyLower "send email subject message to") " ") "message" = some 3 ∧
    interpret 10 "send email subject message to" = ⟨[emailAck], none, true⟩ := by decide

/-- C9 (amended): for every utterance on which the send-email rule fires,
extraction raises (and the interpreter catches it) precisely when a
marker token is absent from the space-split utterance or the token after
the first "to" does not exist; when all three markers are present — in
any order, using the first occurrence of each — and "to" is not the last
token, extraction completes and `send_email` is invoked with recipient
`parts[to+1]`, subject `join(parts[subject+1 : message])` and body
`join(parts[message+1:])`, possibly with an empty subject or body (as in
"send email message bye subject hi to bob"). -/
theorem C9_email_extraction_domain :
    (∀ (hour : Nat) (u : String),
      pyStartsWith (pyLower u) "open " = false →
      pyContains (pyLower u) "weather" = false →
      pyContains (pyLower u) "search for" = false →
      pyContains (pyLower u) "send email" = true →
      ∀ ti si mi : Nat,
        py_index? (pySplit (pyLower u) " ") "to" = some ti →
        py_index? (pySplit (pyLower u) " ") "subject" = some si →
        py_index? (pySplit (pyLower u) " ") "message" = some mi →
        ti + 1 < (pySplit (pyLower u) " ").length →
        interpret hour u =
          ⟨[emailAck],
           some (ToolCall.sendEmail
             ((pySplit (pyLower u) " ").getD (ti + 1) "")
             (pyJoin " " (((pySplit (pyLower u) " ").drop (si + 1)).take (mi - (si + 1))))
             (pyJoin " " ((pySplit (pyLower u) " ").drop (mi + 1)))),
           false⟩) ∧
    (∀ (hour : Nat) (u : String),
      pyStartsWith (pyLower u) "open " = false →
      pyContains (pyLower u) "weather" = false →
      pyContains (pyLower u) "search for" = false →
      pyContains (pyLower u) "send email" = true →
      ∀ ti : Nat,
        py_index? (pySplit (pyLower u) " ") "to" = some ti →
        (pySplit (pyLower u) " ").length ≤ ti + 1 →
        interpret hour u = ⟨[emailAck], none, true⟩) ∧
    (∀ (hour : Nat) (u : String),
      pyStartsWith (pyLower u) "open " = false →
      pyContains (pyLower u) "weather" = false →
      pyContains (pyLower u) "search for" = false →
      pyContains (pyLower u) "send email" = true →
      (py_index? (pySplit (pyLower u) " ") "to" = none ∨
       py_index? (pySplit (pyLower u) " ") "subject" = none ∨
       py_index? (pySplit (pyLower u) " ") "message" = none) →
      interpret hour u = ⟨[emailAck], none, true⟩) ∧
    interpret 10 "send email message bye subject hi to bob" =
      ⟨[emailAck], some (ToolCall.sendEmail "bob" "" "bye subject hi to bob"), false⟩ := by
  refine ⟨?_, ?_, ?_, by decide⟩
  · intro hour u h0 h1 h2 h3 ti si mi hti hsi hmi hlen
    rw [interpret_email_eq hour u h0 h1 h2 h3]
    simp [emailBranch, emailArgs, hti, hsi, hmi, hlen]
  · intro hour u h0 h1 h2 h3 ti hti hlen
    rw [interpret_email_eq hour u h0 h1 h2 h3]
    have hnone : emailArgs (pyLower u) = none := by
      unfold emailArgs
      cases hs : py_index? (pySplit (pyLower u) " ") "subject" <;>
        cases hm : py_index? (pySplit (pyLower u) " ") "message" <;>
          simp [hti, hs, hm, Nat.not_lt.mpr hlen]
    simp [emailBranch, hnone]
  · intro hour u h0 h1 h2 h3 habs
    rw [interpret_email_eq hour u h0 h1 h2 h3]
    simp [emailBranch, emailArgs_none (pyLower u) habs]

/-- C9 (witness): instance of the amended success arm at
"send email to alice subject yo message hello there" (markers in the
assumed order). -/
theorem C9_witness :
    interpret 10 "send email to alice subject yo message hello there" =
      ⟨[emailAck], some (ToolCall.sendEmail "alice" "yo" "hello there"), false⟩ := by
  exact (C9_email_extraction_domain.1 10 "send email to alice subject yo message hello there"
    (by decide) (by decide) (by decide) (by decide) 2 4 6
    (by decide) (by decide) (by decide) (by decide)).trans (by decide)

/-- C10: for every utterance on which the schedule/remind rule fires with
both " in " and " minutes" present but whose minutes text is not a valid
integer literal, the interpreter catches the `int(...)` failure and
speaks the scheduling apology — which differs from the explicit-duration
clarification — and no calendar tool call is made. -/
theorem C10_schedule_parse_failure (hour : Nat) (u : String)
    (h0 : pyStartsWith (pyLower u) "open " = false)
    (h1 : pyContains (pyLower u) "weather" = false)
    (h2 : pyContains (pyLower u) "search for" = false)
    (h3 : pyContains (pyLower u) "send email" = false)
    (h4 : (pyContains (pyLower u) "schedule" || pyContains (pyLower u) "remind me") = true)
    (hin : (pyContains (pyLower u) " in " && pyContains (pyLower u) " minutes") = true)
    (hint : py_int? (scheduleMinutesText (pyLower u)) = none) :
    interpret hour u = ⟨[scheduleAck, scheduleFailMsg], none, true⟩ ∧
    scheduleFailMsg ≠ scheduleClarify := by
  refine ⟨?_, by decide⟩
  rw [interpret_schedule_eq hour u h0 h1 h2 h3 h4]
  simp [scheduleBranch, hin, hint]

/-- C10 (witness): instance at "remind me to stretch in five minutes"
(`int("five")` raises). -/
theorem C10_witness :
    py_int? (scheduleMinutesText (pyLower "remind me to stretch in five minutes")) = none ∧
    interpret 10 "remind me to stretch in five minutes" =
      ⟨[scheduleAck, scheduleFailMsg], none, true⟩ := by
  refine ⟨by decide, ?_⟩
  exact (C10_schedule_parse_failure 10 "remind me to stretch in five minutes"
    (by decide) (by decide) (by decide) (by decide) (by decide) (by decide) (by decide)).1

end Echo
